import Mathlib

/-!
Verification of the Rfits binding layer (src/Rfits.cpp).

The file shallowly embeds the type-code dispatch logic, the null-sentinel
policy, the header-clearing loop, the column-name enumeration loop, the
image read/subset dimension arithmetic and the resource (open/close)
discipline of the caller-facing `Cfits_*` functions, and proves or refutes
the specification's claims about them.

CFITSIO's own behaviour (cell storage, null substitution, status-code
convention) is not part of the repository; where a claim depends on it, a
minimal model is introduced, marked `Modelled from the spec:`.
-/

namespace Rfits

/-! ### CFITSIO constants

Numeric values of the type-code macros from `cfitsio/fitsio.h`, the header
included by `src/Rfits.cpp`.  Note that `TINT32BIT` and `TLONG` are the
same macro value (41) in that header. -/

def TBIT : Int := 1
def TBYTE : Int := 11
def TSTRING : Int := 16
def TUSHORT : Int := 20
def TSHORT : Int := 21
def TUINT : Int := 30
def TINT : Int := 31
def TULONG : Int := 40
def TLONG : Int := 41
def TINT32BIT : Int := 41
def TFLOAT : Int := 42
def TLONGLONG : Int := 81
def TDOUBLE : Int := 82

/-- CFITSIO status code `COL_NOT_FOUND` from `fitsio.h`. -/
def COL_NOT_FOUND : Int := 219

/-! ### Error conversion helpers (`fits_status_to_exception`, `_fits_invoke`)

`fits_status_to_exception` builds the message
`"Error when invoking fits_<name>: <errmsg>"`; `_fits_invoke` runs one
CFITSIO call and throws exactly when the returned status is non-zero.
The library's `fits_get_errstatus` text is abstracted as a function
`errmsg : Int → String`. -/

def fits_status_to_exception (errmsg : Int → String) (func_name : String)
    (status : Int) : String :=
  "Error when invoking fits_" ++ func_name ++ ": " ++ errmsg status

/-- Embedding of `_fits_invoke`: given the status produced by the wrapped
CFITSIO call, either succeed or throw the converted exception. -/
def fitsInvoke (errmsg : Int → String) (func_name : String)
    (status : Int) : Except String Unit :=
  if status ≠ 0 then
    Except.error (fits_status_to_exception errmsg func_name status)
  else
    Except.ok ()

/-! ### `Cfits_read_col` type-code dispatch

The if/else chain of `Cfits_read_col` (lines 70-180), in source order.
Each numeric branch records the `nullval` sentinel it passes to
`fits_read_col` and the `class` attribute it sets on the result. -/

inductive ColRead where
  | strings : ColRead
  | numeric (nullval : Int) (cls : Option String) : ColRead
  | unsupported : ColRead
  deriving DecidableEq, Repr

def readColDispatch (typecode : Int) : ColRead :=
  if typecode = TSTRING then ColRead.strings
  else if typecode = TBYTE then ColRead.numeric 0 none
  else if typecode = TINT then ColRead.numeric (-999) none
  else if typecode = TUINT then ColRead.numeric 0 none
  else if typecode = TINT32BIT then ColRead.numeric 0 none
  else if typecode = TSHORT then ColRead.numeric (-128) none
  else if typecode = TUSHORT then ColRead.numeric 255 none
  else if typecode = TFLOAT then ColRead.numeric (-999) none
  else if typecode = TLONG then ColRead.numeric (-999) none
  else if typecode = TLONGLONG then ColRead.numeric (-999) (some "integer64")
  else if typecode = TDOUBLE then ColRead.numeric (-999) none
  else ColRead.unsupported

/-- Modelled from the spec: `fits_read_col` (CFITSIO, not in src/) delivers
each cell of the column, substituting the caller-supplied `nullval` for
undefined cells.  A cell is `none` when undefined. -/
def cfitsioReadCells (nullval : Int) (cells : List (Option Int)) : List Int :=
  cells.map (fun c => c.getD nullval)

/-- Numeric-column behaviour of `Cfits_read_col`: dispatch on the column
type code, then read all cells with that branch's sentinel. -/
def Cfits_read_col_model (typecode : Int) (cells : List (Option Int)) :
    Except String (List Int) :=
  match readColDispatch typecode with
  | ColRead.strings => Except.error "string column"
  | ColRead.numeric nv _ => Except.ok (cfitsioReadCells nv cells)
  | ColRead.unsupported => Except.error "unsupported type"

/-! ### `Cfits_write_col`, `Cfits_update_key`, `Cfits_write_image` dispatch

Each of these functions is an if/else chain over `typecode` with **no final
else branch**: when no branch matches, control falls through to
`fits_invoke(close_file, fptr)` and the function returns normally.  The
models return `Except.ok b` where `b` records whether a write call was
performed; an exception would be `Except.error`. -/

/-- Dispatch of `Cfits_write_col` (lines 259-273): the cells handed to
`fits_write_col`, or `none` when no branch matched (silent no-op). -/
def writeColDispatchCells (typecode : Int) (vs : List Int) :
    Option (List Int) :=
  if typecode = TSTRING then some vs
  else if typecode = TINT then some vs
  else if typecode = TLONGLONG then some vs
  else if typecode = TDOUBLE then some vs
  else none

/-- Outcome of `Cfits_write_col`: the source never throws on an
unrecognized typecode, so the result is always `ok`; the payload is the
written cells (`none` = nothing written). -/
def Cfits_write_col_model (typecode : Int) (vs : List Int) :
    Except String (Option (List Int)) :=
  Except.ok (writeColDispatchCells typecode vs)

/-- Outcome of `Cfits_update_key` (lines 317-329): `true` iff an
`fits_update_key` call was performed; never an error. -/
def Cfits_update_key_outcome (typecode : Int) : Except String Bool :=
  if typecode = TSTRING then Except.ok true
  else if typecode = TINT then Except.ok true
  else if typecode = TLONGLONG then Except.ok true
  else if typecode = TDOUBLE then Except.ok true
  else Except.ok false

/-- Outcome of `Cfits_write_image` (lines 415-425): `true` iff an
`fits_write_pix` call was performed; never an error. -/
def Cfits_write_image_outcome (datatype : Int) : Except String Bool :=
  if datatype = TINT then Except.ok true
  else if datatype = TSHORT then Except.ok true
  else if datatype = TLONG then Except.ok true
  else if datatype = TDOUBLE then Except.ok true
  else if datatype = TFLOAT then Except.ok true
  else Except.ok false

/-- Outcome of the `Cfits_read_col` dispatch (line 180 throws). -/
def Cfits_read_col_outcome (typecode : Int) : Except String Unit :=
  match readColDispatch typecode with
  | ColRead.unsupported => Except.error "unsupported type"
  | _ => Except.ok ()

/-- Outcome of the `Cfits_read_img` dispatch (lines 366-402): five
supported datatypes, then `throw "unsupported type"`. -/
def Cfits_read_img_outcome (datatype : Int) : Except String Unit :=
  if datatype = TFLOAT then Except.ok ()
  else if datatype = TDOUBLE then Except.ok ()
  else if datatype = TBYTE then Except.ok ()
  else if datatype = TSHORT then Except.ok ()
  else if datatype = TLONG then Except.ok ()
  else Except.error "unsupported type"

/-- Outcome of the `Cfits_read_img_subset` dispatch (lines 500-541): same
five datatypes, then `throw "unsupported type"`. -/
def Cfits_read_img_subset_outcome (datatype : Int) : Except String Unit :=
  if datatype = TFLOAT then Except.ok ()
  else if datatype = TDOUBLE then Except.ok ()
  else if datatype = TBYTE then Except.ok ()
  else if datatype = TSHORT then Except.ok ()
  else if datatype = TLONG then Except.ok ()
  else Except.error "unsupported type"

/-! ### Column storage round trip -/

/-- Modelled from the spec: binary-table cell storage (CFITSIO, not in
src/).  `fits_write_col` stores the given values verbatim; on read, a
stored cell is undefined iff it equals the column's null marker
(`TNULLn` semantics, spec §4.4/§9); a column with no marker has
`tnull = none`. -/
def libReadStored (tnull : Option Int) (vs : List Int) :
    List (Option Int) :=
  vs.map (fun v => if tnull = some v then none else some v)

/-! ### Image reads -/

/-- An R matrix as produced by `Rcpp`: `nrow` rows, `ncol` columns, and the
flat buffer filled by `std::copy` into `begin()`, i.e. column-major. -/
structure RMatrix where
  nrow : Nat
  ncol : Nat
  colmajor : List Int
  deriving DecidableEq, Repr

/-- Entry `(i, j)` (0-based) of a column-major matrix. -/
def RMatrix.entry (m : RMatrix) (i j : Nat) : Int :=
  m.colmajor.getD (j * m.nrow + i) 0

/-- Modelled from the spec: `fits_read_img` (CFITSIO, not in src/) reads
`nelem` samples starting at 1-based sample `firstelem`, substituting
`nullval` for undefined samples; it fails if the image holds fewer
samples. -/
def libReadImg (pixels : List (Option Int)) (firstelem nelem : Nat)
    (nullval : Int) : Option (List Int) :=
  if firstelem - 1 + nelem ≤ pixels.length then
    some (((pixels.drop (firstelem - 1)).take nelem).map
      (fun p => p.getD nullval))
  else
    none

/-- One supported branch of `Cfits_read_img`: read `naxis1 * naxis2`
samples from sample 1 with null marker 0 (`nullvals = 0` in the source)
and fill a `naxis1 × naxis2` matrix column-major. -/
def readImgBranch (naxis1 naxis2 : Nat) (pixels : List (Option Int)) :
    Except String RMatrix :=
  match libReadImg pixels 1 (naxis1 * naxis2) 0 with
  | some vals => Except.ok (RMatrix.mk naxis1 naxis2 vals)
  | none => Except.error "read error"

/-- Embedding of `Cfits_read_img` (lines 355-403): dispatch on `datatype`, read the
whole `naxis1 * naxis2` extent, throw on an unrecognized datatype. -/
def Cfits_read_img_model (naxis1 naxis2 : Nat) (datatype : Int)
    (pixels : List (Option Int)) : Except String RMatrix :=
  if datatype = TFLOAT then readImgBranch naxis1 naxis2 pixels
  else if datatype = TDOUBLE then readImgBranch naxis1 naxis2 pixels
  else if datatype = TBYTE then readImgBranch naxis1 naxis2 pixels
  else if datatype = TSHORT then readImgBranch naxis1 naxis2 pixels
  else if datatype = TLONG then readImgBranch naxis1 naxis2 pixels
  else Except.error "unsupported type"

/-! ### Image subset reads (`Cfits_read_img_subset`)

The source computes (lines 495-497), with `fpixel = {fpixel0, fpixel1}`
and `lpixel = {lpixel0, lpixel1}`:
`naxis1 = lpixel[1] - fpixel[0] + 1` and
`naxis2 = lpixel[1] - lpixel[0] + 1`. -/

def subsetNaxis1 (fpixel0 lpixel1 : Int) : Int := lpixel1 - fpixel0 + 1

def subsetNaxis2 (lpixel0 lpixel1 : Int) : Int := lpixel1 - lpixel0 + 1

/-- Modelled from the spec: `fits_read_subset` (CFITSIO, not in src/)
reads the inclusive 1-based rectangle `x ∈ [f0, l0]`, `y ∈ [f1, l1]` with
unit stride from an image stored with first axis length `ax1`, first axis
fastest, substituting `nullval` for undefined samples. -/
def libReadSubset (ax1 : Nat) (pixels : List (Option Int))
    (f0 f1 l0 l1 : Nat) (nullval : Int) : List Int :=
  (List.range' f1 (l1 + 1 - f1)).flatMap (fun y =>
    (List.range' f0 (l0 + 1 - f0)).map (fun x =>
      (pixels.getD ((y - 1) * ax1 + (x - 1)) none).getD nullval))

/-- One supported branch of `Cfits_read_img_subset`: the buffer is a
zero-initialized vector of `npixels = naxis1 * naxis2` elements (with the
source's dimension formulas); `fits_read_subset` fills it with the
rectangle's samples and `std::copy` moves `npixels` elements into a
`naxis1 × naxis2` matrix.  A rectangle larger than the buffer overruns it
in C (undefined behaviour); the model truncates, and the theorems below
only evaluate it where the sizes agree. -/
def readSubsetBranch (ax1 : Nat) (pixels : List (Option Int))
    (f0 f1 l0 l1 : Int) : Except String RMatrix :=
  let n1 := (subsetNaxis1 f0 l1).toNat
  let n2 := (subsetNaxis2 l0 l1).toNat
  let vals := libReadSubset ax1 pixels f0.toNat f1.toNat l0.toNat l1.toNat 0
  Except.ok (RMatrix.mk n1 n2 ((vals ++ List.replicate (n1 * n2) 0).take (n1 * n2)))

/-- Embedding of `Cfits_read_img_subset` (lines 483-542): dispatch on `datatype` over
the same five supported codes as `Cfits_read_img`, then throw. -/
def Cfits_read_img_subset_model (ax1 : Nat) (pixels : List (Option Int))
    (f0 f1 l0 l1 : Int) (datatype : Int) : Except String RMatrix :=
  if datatype = TFLOAT then readSubsetBranch ax1 pixels f0 f1 l0 l1
  else if datatype = TDOUBLE then readSubsetBranch ax1 pixels f0 f1 l0 l1
  else if datatype = TBYTE then readSubsetBranch ax1 pixels f0 f1 l0 l1
  else if datatype = TSHORT then readSubsetBranch ax1 pixels f0 f1 l0 l1
  else if datatype = TLONG then readSubsetBranch ax1 pixels f0 f1 l0 l1
  else Except.error "unsupported type"

/-! ### Column-name enumeration loop (`Cfits_read_colname`, lines 218-226)

The loop keeps a single `status` variable, calls `fits_get_colname` each
iteration and increments `ii`; it exits only when `status` equals
`COL_NOT_FOUND`.  `statuses k` is the status value left in `status` by the
`(k+1)`-th call. -/

def colnameStep (statuses : Nat → Int) (s : Int × Nat) : Int × Nat :=
  if s.1 = COL_NOT_FOUND then s else (statuses s.2, s.2 + 1)

/-- State `(status, ii)` after `n` tests of the loop condition, starting
from `status = 0`, `ii = 0`. -/
def colnameIter (statuses : Nat → Int) : Nat → Int × Nat
  | 0 => (0, 0)
  | n + 1 => colnameStep statuses (colnameIter statuses n)

/-- Outcome of `Cfits_read_colname` observed through at most `fuel` loop
iterations: `some (Except.ok ii)` when the loop has exited (after which the
function closes the file and returns normally — the loop statuses are never
turned into exceptions), `none` when it is still running. -/
def Cfits_read_colname_outcome (statuses : Nat → Int) (fuel : Nat) :
    Option (Except String Nat) :=
  let s := colnameIter statuses fuel
  if s.1 = COL_NOT_FOUND then some (Except.ok s.2) else none

/-! ### Header clearing (`Cfits_delete_header`, lines 469-480) -/

/-- Call `fits_delete_record` at 1-based position `pos`: removes that card,
shifting later cards up (CFITSIO; modelled from the spec's
`deleteRecordAt`). -/
def deleteRecordAt (pos : Nat) (cards : List String) : List String :=
  cards.eraseIdx (pos - 1)

/-- The loop `for (ii = 2; ii <= nkeys; ii++) delete_record(fptr, 2)`:
`k` remaining iterations, each deleting the card at position 2. -/
def deleteHeaderLoop (k : Nat) (cards : List String) : List String :=
  match k with
  | 0 => cards
  | k + 1 => deleteHeaderLoop k (deleteRecordAt 2 cards)

/-- Embedding of `Cfits_delete_header`: reads `nkeys` once (`fits_get_hdrpos`), then
runs the deletion loop `nkeys - 1` times.  Returns the final header and
the number of `delete_record` calls issued. -/
def Cfits_delete_header_model (cards : List String) : List String × Nat :=
  (deleteHeaderLoop (cards.length - 1) cards, cards.length - 1)

/-! ### Open/close discipline

Each caller-facing operation is a straight-line sequence of CFITSIO calls;
`_fits_invoke` throws on the first failing call and the sources have no
catch/finally, so the remaining calls of the sequence are skipped.
`runSteps` returns the calls actually executed. -/

def runSteps (fails : String → Bool) : List String → List String
  | [] => []
  | s :: rest => if fails s then [s] else s :: runSteps fails rest

/-- Number of `close_file` calls executed. -/
def closeCalls (trace : List String) : Nat := trace.count "close_file"

/-- The file handle was successfully opened during the trace. -/
def openSucceeded (fails : String → Bool) (trace : List String) : Prop :=
  "open_file" ∈ trace ∧ fails "open_file" = false

/-- The CFITSIO calls of `Cfits_read_nrow` (lines 184-193), in source
order. -/
def readNrowSteps : List String :=
  ["open_file", "movabs_hdu", "get_num_rows", "close_file"]

/-- The CFITSIO calls of a numeric-branch `Cfits_read_col` (lines 60-181),
in source order. -/
def readColSteps : List String :=
  ["open_file", "movabs_hdu", "get_num_rows", "get_coltype",
   "read_col", "close_file"]

/-! ### 64-bit column payloads (`TLONGLONG` branch, lines 160-168) -/

/-- Two's-complement 64-bit pattern of a signed value. -/
def int64ToBits (v : Int) : Nat := (v % (2 : Int) ^ 64).toNat

/-- The signed value a 64-bit pattern denotes. -/
def bitsToInt64 (b : Nat) : Int :=
  if b < 2 ^ 63 then (b : Int) else (b : Int) - 2 ^ 64

/-- An R numeric vector viewed as raw 8-byte payloads plus its `class`
attribute. -/
structure RVector where
  bits : List Nat
  cls : Option String
  deriving DecidableEq, Repr

def sizeof_double : Nat := 8

def sizeof_int64 : Nat := 8

/-- The `TLONGLONG` branch of `Cfits_read_col`: the `int64_t` cells are
moved into the numeric vector by `memcpy` of `nrow * sizeof(double)`
bytes — bit patterns unchanged, no value conversion — and the result is
tagged with `class = "integer64"`. -/
def readColLonglongBranch (cells : List Int) : RVector :=
  RVector.mk (cells.map int64ToBits) (some "integer64")

/-! ### Helper lemmas -/

lemma map_map_id {α β : Type} (f : α → β) (g : β → α) (l : List α)
    (h : ∀ x ∈ l, g (f x) = x) : (l.map f).map g = l := by
  rw [List.map_map]
  induction l with
  | nil => rfl
  | cons a t ih =>
    simp only [List.map_cons, Function.comp_apply]
    rw [h a (List.mem_cons_self a t), ih (fun x hx => h x (List.mem_cons_of_mem a hx))]

lemma int64_roundtrip (v : Int) (h1 : -(2 ^ 63) ≤ v) (h2 : v < 2 ^ 63) :
    bitsToInt64 (int64ToBits v) = v := by
  unfold bitsToInt64 int64ToBits
  by_cases hb : ((v % (2 : Int) ^ 64).toNat : Nat) < 2 ^ 63
  · simp only [hb, if_true]
    omega
  · simp only [hb, if_false]
    omega

lemma index_col_major (i j a b : Nat) (hi : i < a) (hj : j < b) :
    j * a + i < a * b := by
  calc j * a + i < j * a + a := by omega
    _ = (j + 1) * a := by ring
    _ ≤ b * a := Nat.mul_le_mul_right a hj
    _ = a * b := Nat.mul_comm b a

lemma read_after_write_cell (tnull : Option Int) (nv : Int)
    (hn : tnull = none ∨ tnull = some nv) (v : Int) :
    Option.getD (if tnull = some v then none else some v) nv = v := by
  rcases hn with h | h <;> subst h <;> by_cases hv : nv = v <;> simp [hv]

lemma read_after_write (tnull : Option Int) (nv : Int)
    (hn : tnull = none ∨ tnull = some nv) (vs : List Int) :
    cfitsioReadCells nv (libReadStored tnull vs) = vs := by
  unfold cfitsioReadCells libReadStored
  exact map_map_id _ _ vs (fun v _ => read_after_write_cell tnull nv hn v)

lemma deleteHeaderLoop_cons (t : List String) (c : String) :
    deleteHeaderLoop t.length (c :: t) = [c] := by
  induction t generalizing c with
  | nil => rfl
  | cons b t ih =>
    show deleteHeaderLoop (t.length + 1) (c :: b :: t) = [c]
    have h2 : deleteRecordAt 2 (c :: b :: t) = c :: t := rfl
    show deleteHeaderLoop t.length (deleteRecordAt 2 (c :: b :: t)) = [c]
    rw [h2, ih]

lemma colnameIter_snd_le (statuses : Nat → Int) (n : Nat) :
    (colnameIter statuses n).2 ≤ n := by
  induction n with
  | zero => simp [colnameIter]
  | succ n ih =>
    by_cases h : (colnameIter statuses n).1 = COL_NOT_FOUND <;>
      simp [colnameIter, colnameStep, h] <;> omega

lemma colnameIter_stuck_cnf (n : Nat) :
    colnameIter (fun _ => COL_NOT_FOUND) (n + 1) = (COL_NOT_FOUND, 1) := by
  induction n with
  | zero => rfl
  | succ n ih =>
    show colnameStep (fun _ => COL_NOT_FOUND) (colnameIter (fun _ => COL_NOT_FOUND) (n + 1)) =
      (COL_NOT_FOUND, 1)
    rw [ih]
    rfl

/-! ### Claim theorems -/

/-- Claim C1, counterexample: `Cfits_write_col`, `Cfits_update_key` and
`Cfits_write_image` invoked with the unrecognized typecode 99 complete
normally as a no-op (no write performed, `Except.ok`) instead of raising
an UnsupportedType error as the claim states. -/
theorem C1_counterexample :
    Cfits_write_col_model 99 [0] = Except.ok none ∧
    Cfits_update_key_outcome 99 = Except.ok false ∧
    Cfits_write_image_outcome 99 = Except.ok false :=
  ⟨rfl, rfl, rfl⟩

/-- Claim C1 (amended): for each operation and each type code outside
that operation's own supported set, the read operations
(`Cfits_read_col`, `Cfits_read_img`, `Cfits_read_img_subset`) throw the
hard error "unsupported type", while `Cfits_write_col`,
`Cfits_update_key` and `Cfits_write_image` perform no write and complete
silently (they open, seek, close and return). -/
theorem C1_unsupported_typecode_policy (t : Int) :
    (t ∉ ([TSTRING, TBYTE, TINT, TUINT, TINT32BIT, TSHORT, TUSHORT,
        TFLOAT, TLONG, TLONGLONG, TDOUBLE] : List Int) →
      Cfits_read_col_outcome t = Except.error "unsupported type") ∧
    (t ∉ ([TFLOAT, TDOUBLE, TBYTE, TSHORT, TLONG] : List Int) →
      Cfits_read_img_outcome t = Except.error "unsupported type") ∧
    (t ∉ ([TFLOAT, TDOUBLE, TBYTE, TSHORT, TLONG] : List Int) →
      Cfits_read_img_subset_outcome t = Except.error "unsupported type") ∧
    (t ∉ ([TSTRING, TINT, TLONGLONG, TDOUBLE] : List Int) →
      ∀ vs, Cfits_write_col_model t vs = Except.ok none) ∧
    (t ∉ ([TSTRING, TINT, TLONGLONG, TDOUBLE] : List Int) →
      Cfits_update_key_outcome t = Except.ok false) ∧
    (t ∉ ([TINT, TSHORT, TLONG, TDOUBLE, TFLOAT] : List Int) →
      Cfits_write_image_outcome t = Except.ok false) := by
  refine ⟨?_, ?_, ?_, ?_, ?_, ?_⟩ <;> intro h <;>
    simp only [List.mem_cons, List.not_mem_nil, or_false, not_or] at h <;>
    simp [Cfits_read_col_outcome, readColDispatch, Cfits_read_img_outcome,
      Cfits_read_img_subset_outcome, Cfits_write_col_model,
      writeColDispatchCells, Cfits_update_key_outcome,
      Cfits_write_image_outcome, h]

/-- Witness for C1 at concrete per-operation out-of-set type codes:
`TINT` is outside the image-read set (raises), `TFLOAT` is outside the
column-write set (silent no-op), and 99 is outside every set. -/
theorem C1_policy_witness :
    Cfits_read_img_outcome TINT = Except.error "unsupported type" ∧
    Cfits_write_col_model TFLOAT [0] = Except.ok none ∧
    Cfits_read_col_outcome 99 = Except.error "unsupported type" :=
  ⟨(C1_unsupported_typecode_policy TINT).2.1 (by decide),
   (C1_unsupported_typecode_policy TFLOAT).2.2.2.1 (by decide) [0],
   (C1_unsupported_typecode_policy 99).1 (by decide)⟩

/-- Claim C2, failing input: on a 2 × 3 image, reading the full extent via
`Cfits_read_img_subset` with `fpixel = (1,1)`, `lpixel = (2,3)` yields a
3 × 2 matrix (the source computes `naxis1 = lpixel[1] - fpixel[0] + 1`
and `naxis2 = lpixel[1] - lpixel[0] + 1`), which differs from the 2 × 3
matrix returned by `Cfits_read_img 2 3` — the dimensions, and hence
entries such as `(0,1)`, disagree. -/
theorem C2_subset_vs_full_read_bug :
    Cfits_read_img_model 2 3 TDOUBLE
      [some 1, some 2, some 3, some 4, some 5, some 6] =
      Except.ok (RMatrix.mk 2 3 [1, 2, 3, 4, 5, 6]) ∧
    Cfits_read_img_subset_model 2
      [some 1, some 2, some 3, some 4, some 5, some 6] 1 1 2 3 TDOUBLE =
      Except.ok (RMatrix.mk 3 2 [1, 2, 3, 4, 5, 6]) ∧
    RMatrix.mk 3 2 [1, 2, 3, 4, 5, 6] ≠ RMatrix.mk 2 3 [1, 2, 3, 4, 5, 6] ∧
    (RMatrix.mk 3 2 [1, 2, 3, 4, 5, 6]).entry 0 1 ≠
      (RMatrix.mk 2 3 [1, 2, 3, 4, 5, 6]).entry 0 1 :=
  ⟨rfl, rfl, by decide, by decide⟩

/-- Claim C4, counterexample: the column type code `TLONG` (41) is the
same constant as `TINT32BIT`, so it is captured by the earlier
`TINT32BIT` branch of `Cfits_read_col`, whose null sentinel is 0 — not
-999 as the claim states for long columns (the `-999` `TLONG` branch at
lines 151-159 is unreachable). -/
theorem C4_counterexample :
    TLONG = TINT32BIT ∧
    readColDispatch TLONG = ColRead.numeric 0 none ∧
    readColDispatch TLONG ≠ ColRead.numeric (-999) none := by
  refine ⟨rfl, rfl, ?_⟩
  decide

/-- Claim C5, failing input: in `Cfits_read_nrow` (the same pattern as
every other operation), when `fits_movabs_hdu` fails after a successful
open, the thrown exception propagates and `fits_invoke(close_file, ...)`
is never executed: zero close calls despite a successful open.  On the
success path the handle is closed exactly once. -/
theorem C5_error_path_skips_close :
    runSteps (fun s => s == "movabs_hdu") readNrowSteps =
      ["open_file", "movabs_hdu"] ∧
    openSucceeded (fun s => s == "movabs_hdu")
      (runSteps (fun s => s == "movabs_hdu") readNrowSteps) ∧
    closeCalls (runSteps (fun s => s == "movabs_hdu") readNrowSteps) = 0 ∧
    closeCalls (runSteps (fun _ => false) readNrowSteps) = 1 ∧
    closeCalls (runSteps (fun s => s == "movabs_hdu") readColSteps) = 0 ∧
    closeCalls (runSteps (fun _ => false) readColSteps) = 1 := by
  refine ⟨rfl, ⟨by decide, by decide⟩, by decide, by decide, by decide, by decide⟩

/-- Claim C6, counterexample: the first `fits_get_colname` call of
`Cfits_read_colname` leaving the non-zero status `COL_NOT_FOUND` makes
the loop exit and the function return normally — the non-zero status is
used only for loop control and is never converted into an exception. -/
theorem C6_counterexample :
    COL_NOT_FOUND ≠ 0 ∧
    Cfits_read_colname_outcome (fun _ => COL_NOT_FOUND) 1 =
      some (Except.ok 1) :=
  ⟨by decide, rfl⟩

/-- Claim C3: for each numeric column type code supported by
`Cfits_write_col` (`TINT`, `TLONGLONG`, `TDOUBLE`), writing a sequence of
values and reading the same row range back returns the original values
bit-for-bit; a written cell equal to the type's null sentinel (-999) is
reinterpreted as the sentinel on read, which leaves it unchanged.  The
column's null marker is either absent or the fixed sentinel itself. -/
theorem C3_write_read_roundtrip (t : Int)
    (ht : t = TINT ∨ t = TLONGLONG ∨ t = TDOUBLE)
    (tnull : Option Int) (hn : tnull = none ∨ tnull = some (-999))
    (vs stored : List Int)
    (hw : writeColDispatchCells t vs = some stored) :
    Cfits_read_col_model t (libReadStored tnull stored) = Except.ok vs := by
  have hst : stored = vs := by
    rcases ht with h | h | h <;> subst h <;>
      simp [writeColDispatchCells, TINT, TLONGLONG, TDOUBLE, TSTRING] at hw <;>
      exact hw.symm
  subst hst
  rcases ht with h | h | h <;> subst h <;>
    simp [Cfits_read_col_model, readColDispatch, TINT, TLONGLONG, TDOUBLE,
      TSTRING, TBYTE, TUINT, TINT32BIT, TSHORT, TUSHORT, TFLOAT, TLONG] <;>
    exact read_after_write tnull (-999) hn stored

/-- Witness for C3: round trip of `[5, -999, 7]` through a `TINT` column
whose null marker is the sentinel -999. -/
theorem C3_roundtrip_witness :
    Cfits_read_col_model TINT (libReadStored (some (-999)) [5, -999, 7]) =
      Except.ok [5, -999, 7] :=
  C3_write_read_roundtrip TINT (Or.inl rfl) (some (-999)) (Or.inr rfl)
    [5, -999, 7] [5, -999, 7] rfl

/-- Claim C4 (amended): every numeric branch of `Cfits_read_col`
substitutes its fixed sentinel for undefined cells, and the sentinels
are: 0 for unsigned byte, unsigned int and the 32-bit long code
(`TLONG = TINT32BIT = 41`, first matched by the `TINT32BIT` branch);
-999 for `TINT` and `TLONGLONG`; -128 for signed short; 255 for unsigned
short; -999.0 for float and double. -/
theorem C4_null_sentinel_table :
    (∀ t nv cls cells, readColDispatch t = ColRead.numeric nv cls →
      Cfits_read_col_model t cells =
        Except.ok (cells.map (fun c => c.getD nv))) ∧
    readColDispatch TBYTE = ColRead.numeric 0 none ∧
    readColDispatch TUINT = ColRead.numeric 0 none ∧
    readColDispatch TINT32BIT = ColRead.numeric 0 none ∧
    readColDispatch TLONG = ColRead.numeric 0 none ∧
    readColDispatch TINT = ColRead.numeric (-999) none ∧
    readColDispatch TLONGLONG = ColRead.numeric (-999) (some "integer64") ∧
    readColDispatch TSHORT = ColRead.numeric (-128) none ∧
    readColDispatch TUSHORT = ColRead.numeric 255 none ∧
    readColDispatch TFLOAT = ColRead.numeric (-999) none ∧
    readColDispatch TDOUBLE = ColRead.numeric (-999) none := by
  refine ⟨?_, rfl, rfl, rfl, rfl, rfl, rfl, rfl, rfl, rfl, rfl⟩
  intro t nv cls cells hd
  simp [Cfits_read_col_model, hd, cfitsioReadCells]

/-- Witness for C4: an undefined `TBYTE` cell reads back as 0. -/
theorem C4_sentinel_witness :
    Cfits_read_col_model TBYTE [none, some 7] = Except.ok [0, 7] :=
  C4_null_sentinel_table.1 TBYTE 0 none [none, some 7] rfl

/-- Claim C6 (amended): every CFITSIO call routed through `_fits_invoke`
has its status checked immediately — any non-zero status becomes an
exception naming the failing operation and carrying the library's error
text, and a zero status succeeds — but the `fits_get_colname` calls inside
`Cfits_read_colname` are exempt: their statuses only control the loop, and
a `COL_NOT_FOUND` status ends the loop with a normal return, never an
exception. -/
theorem C6_status_check_discipline :
    (∀ errmsg func_name status, status ≠ 0 →
      fitsInvoke errmsg func_name status = Except.error
        ("Error when invoking fits_" ++ func_name ++ ": " ++ errmsg status)) ∧
    (∀ errmsg func_name, fitsInvoke errmsg func_name 0 = Except.ok ()) ∧
    (∀ fuel, Cfits_read_colname_outcome (fun _ => COL_NOT_FOUND) (fuel + 1) =
      some (Except.ok 1)) := by
  refine ⟨?_, ?_, ?_⟩
  · intro errmsg func_name status hs
    simp [fitsInvoke, fits_status_to_exception, hs]
  · intro errmsg func_name
    simp [fitsInvoke]
  · intro fuel
    simp [Cfits_read_colname_outcome, colnameIter_stuck_cnf]

/-- Witness for C6: a failing `movabs_hdu` status becomes the converted
exception, and the colname loop returns normally on `COL_NOT_FOUND`. -/
theorem C6_discipline_witness :
    fitsInvoke (fun _ => "bad HDU num") "movabs_hdu" 301 = Except.error
      ("Error when invoking fits_" ++ "movabs_hdu" ++ ": " ++
        (fun _ : Int => "bad HDU num") 301) ∧
    Cfits_read_colname_outcome (fun _ => COL_NOT_FOUND) 2 =
      some (Except.ok 1) :=
  ⟨C6_status_check_discipline.1 (fun _ => "bad HDU num") "movabs_hdu" 301
    (by decide),
   C6_status_check_discipline.2.2 1⟩

/-- Claim C7: on a header of n ≥ 1 cards, `Cfits_delete_header` issues
exactly n - 1 `fits_delete_record` calls, each at physical position 2,
after which exactly card 1 remains. -/
theorem C7_delete_header_keeps_card1 (c : String) (rest : List String) :
    Cfits_delete_header_model (c :: rest) = ([c], rest.length) := by
  unfold Cfits_delete_header_model
  simp only [List.length_cons, Nat.add_sub_cancel]
  rw [deleteHeaderLoop_cons]

/-- Claim C8: for each supported pixel type, `Cfits_read_img` reads
exactly `naxis1 * naxis2` samples starting at the first pixel with null
marker 0 and returns a matrix of `naxis1` rows and `naxis2` columns
filled in column-major order. -/
theorem C8_read_img_column_major (naxis1 naxis2 : Nat) (datatype : Int)
    (pixels : List (Option Int))
    (hd : datatype = TFLOAT ∨ datatype = TDOUBLE ∨ datatype = TBYTE ∨
      datatype = TSHORT ∨ datatype = TLONG)
    (hl : naxis1 * naxis2 ≤ pixels.length) :
    ∃ m, Cfits_read_img_model naxis1 naxis2 datatype pixels = Except.ok m ∧
      m.nrow = naxis1 ∧ m.ncol = naxis2 ∧
      m.colmajor.length = naxis1 * naxis2 ∧
      ∀ i j, i < naxis1 → j < naxis2 →
        m.entry i j = (pixels.getD (j * naxis1 + i) none).getD 0 := by
  have hb : ∃ m, readImgBranch naxis1 naxis2 pixels = Except.ok m ∧
      m.nrow = naxis1 ∧ m.ncol = naxis2 ∧
      m.colmajor.length = naxis1 * naxis2 ∧
      ∀ i j, i < naxis1 → j < naxis2 →
        m.entry i j = (pixels.getD (j * naxis1 + i) none).getD 0 := by
    have hle : 1 - 1 + naxis1 * naxis2 ≤ pixels.length := by simpa using hl
    refine ⟨RMatrix.mk naxis1 naxis2
      (((pixels.drop (1 - 1)).take (naxis1 * naxis2)).map
        (fun p => p.getD 0)), ?_, rfl, rfl, ?_, ?_⟩
    · unfold readImgBranch libReadImg
      rw [if_pos hle]
    · simp [List.length_take, Nat.min_eq_left hl]
    · intro i j hi hj
      have hidx : j * naxis1 + i < naxis1 * naxis2 :=
        index_col_major i j naxis1 naxis2 hi hj
      have hidx2 : j * naxis1 + i < pixels.length := lt_of_lt_of_le hidx hl
      simp [RMatrix.entry, List.getD_eq_getElem?_getD, List.getElem?_map,
        List.getElem?_take, hidx, List.getElem?_eq_getElem hidx2]
  rcases hd with h | h | h | h | h <;> subst h <;>
    simpa [Cfits_read_img_model, TFLOAT, TDOUBLE, TBYTE, TSHORT, TLONG]
      using hb

/-- Witness for C8: a 2 × 2 float image with one undefined pixel. -/
theorem C8_read_img_witness :
    ∃ m, Cfits_read_img_model 2 2 TFLOAT [some 1, none, some 3, some 4] =
      Except.ok m ∧ m.nrow = 2 ∧ m.ncol = 2 ∧ m.colmajor.length = 2 * 2 ∧
      ∀ i j, i < 2 → j < 2 →
        m.entry i j = (([some 1, none, some 3, some 4] :
          List (Option Int)).getD (j * 2 + i) none).getD 0 :=
  C8_read_img_column_major 2 2 TFLOAT [some 1, none, some 3, some 4]
    (Or.inl rfl) (by decide)

/-- Claim C9: when every `fits_get_colname` call leaves a non-zero status
different from `COL_NOT_FOUND`, the enumeration loop of
`Cfits_read_colname` never exits and its counter `ii` equals the number
of iterations, growing without bound; and whenever the loop has exited,
some call did report `COL_NOT_FOUND`. -/
theorem C9_colname_loop_termination (statuses : Nat → Int)
    (h : ∀ k, statuses k ≠ 0 ∧ statuses k ≠ COL_NOT_FOUND) :
    (∀ n, (colnameIter statuses n).1 ≠ COL_NOT_FOUND ∧
      (colnameIter statuses n).2 = n) ∧
    (∀ sts : Nat → Int, ∀ n, (colnameIter sts n).1 = COL_NOT_FOUND →
      ∃ k, k < n ∧ sts k = COL_NOT_FOUND) := by
  constructor
  · intro n
    induction n with
    | zero =>
      refine ⟨?_, rfl⟩
      simp [colnameIter, COL_NOT_FOUND]
    | succ n ih =>
      show (colnameStep statuses (colnameIter statuses n)).1 ≠ COL_NOT_FOUND ∧
        (colnameStep statuses (colnameIter statuses n)).2 = n + 1
      rw [colnameStep, if_neg ih.1]
      exact ⟨by simpa [ih.2] using (h n).2, by simp [ih.2]⟩
  · intro sts n
    induction n with
    | zero =>
      intro hc
      exact absurd hc (by simp [colnameIter, COL_NOT_FOUND])
    | succ n ih =>
      intro hc
      by_cases hn : (colnameIter sts n).1 = COL_NOT_FOUND
      · obtain ⟨k, hk, hks⟩ := ih hn
        exact ⟨k, Nat.lt_succ_of_lt hk, hks⟩
      · rw [show colnameIter sts (n + 1) =
            colnameStep sts (colnameIter sts n) from rfl,
          colnameStep, if_neg hn] at hc
        refine ⟨(colnameIter sts n).2, ?_, hc⟩
        exact Nat.lt_succ_of_le (colnameIter_snd_le sts n)

/-- Witness for C9: with every call leaving status 104, after 3
iterations the loop has not exited and the counter is 3. -/
theorem C9_nontermination_witness :
    (colnameIter (fun _ => 104) 3).1 ≠ COL_NOT_FOUND ∧
    (colnameIter (fun _ => 104) 3).2 = 3 :=
  (C9_colname_loop_termination (fun _ => 104)
    (by
      intro k
      exact ⟨by show (104 : Int) ≠ 0; decide,
        by show (104 : Int) ≠ COL_NOT_FOUND; decide⟩)).1 3

/-- Claim C10: the `TLONGLONG` branch of `Cfits_read_col` tags its result
with class "integer64" and moves the 64-bit cells into the vector as raw
8-byte patterns (`memcpy` of `nrow * sizeof(double)` bytes, the exact size
of the `int64_t` buffer), so every bit of every cell is preserved: mapping
the patterns back through two's-complement decoding recovers the cells
exactly. -/
theorem C10_longlong_bits_preserved (cells : List Int)
    (h : ∀ v ∈ cells, -(2 ^ 63) ≤ v ∧ v < 2 ^ 63) :
    (readColLonglongBranch cells).cls = some "integer64" ∧
    (readColLonglongBranch cells).bits = cells.map int64ToBits ∧
    (readColLonglongBranch cells).bits.map bitsToInt64 = cells ∧
    cells.length * sizeof_double = cells.length * sizeof_int64 ∧
    sizeof_double = 8 := by
  refine ⟨rfl, rfl, ?_, rfl, rfl⟩
  exact map_map_id int64ToBits bitsToInt64 cells
    (fun v hv => int64_roundtrip v (h v hv).1 (h v hv).2)

/-- Witness for C10: extreme 64-bit values round-trip exactly. -/
theorem C10_bits_witness :
    (readColLonglongBranch
      [0, -1, 9223372036854775807, -9223372036854775808]).cls =
        some "integer64" ∧
    (readColLonglongBranch
      [0, -1, 9223372036854775807, -9223372036854775808]).bits =
      ([0, -1, 9223372036854775807, -9223372036854775808] :
        List Int).map int64ToBits ∧
    (readColLonglongBranch
      [0, -1, 9223372036854775807, -9223372036854775808]).bits.map
        bitsToInt64 =
      [0, -1, 9223372036854775807, -9223372036854775808] ∧
    ([0, -1, 9223372036854775807, -9223372036854775808] :
      List Int).length * sizeof_double =
      ([0, -1, 9223372036854775807, -9223372036854775808] :
        List Int).length * sizeof_int64 ∧
    sizeof_double = 8 :=
  C10_longlong_bits_preserved
    [0, -1, 9223372036854775807, -9223372036854775808] (by decide)

end Rfits
